import Mathlib

/-!
Verification of the path-confinement guard and CSV filter task of a small
task-execution service (`tasksB.py`).

The embedding is shallow and lexical:
* a `pathlib.Path` value is a pair (absolute flag, list of name segments);
* `Path.__truediv__` (the `/` operator) is `pathJoin`;
* `Path.resolve()` is modelled lexically (`.` and `..` elimination; the
  symlink-free case of the platform canonicalizer), and as fallible:
  CPython raises `ValueError("embedded null byte")` when a path handed to
  the OS contains a NUL character, and `tasksB.py` installs no handler for
  it, so the failure is carried in an `Except`;
* `str(path)` is `pyStr`, `str.startswith` is `strStartsWith`;
* Python exceptions that reach the request layer are the `PyError` type:
  `HTTPException(status, detail)` raised deliberately by the code, and
  `valueError` for the uncaught canonicalization failure.
-/

/-- A `pathlib.Path` value: whether it is anchored at `/`, and its name
segments in order (no empty and no `.` segments, which `PurePath`
normalizes away at construction). -/
structure PyPath where
  absolute : Bool
  segments : List String
deriving DecidableEq, Repr

/-- `DATA_DIR = Path("/data")` — the fixed root directory (tasksB.py line 18). -/
def DATA_DIR : PyPath := ⟨true, ["data"]⟩

/-- `Path.__truediv__`: `a / b`.  If `b` is absolute it replaces `a`
entirely; otherwise the segments are concatenated. -/
def pathJoin (a b : PyPath) : PyPath :=
  if b.absolute then b else ⟨a.absolute, a.segments ++ b.segments⟩

/-- One step of lexical `..`/`.` elimination: `.` and empty segments are
dropped, `..` removes the last accumulated segment (at the root, `/..`
is `/`, hence `dropLast [] = []`), any other name is appended. -/
def resolveStep (acc : List String) (seg : String) : List String :=
  if seg == "." || seg == "" then acc
  else if seg == ".." then acc.dropLast
  else acc ++ [seg]

/-- Lexical normalization of a segment list, left to right. -/
def resolveSegs (segs : List String) : List String :=
  segs.foldl resolveStep []

/-- Exceptions of the Python code that reach the request layer. -/
inductive PyError where
  /-- `fastapi.HTTPException(status_code, detail)`, raised deliberately. -/
  | httpException (status : Nat) (detail : String)
  /-- An uncaught `ValueError` (no handler exists in `tasksB.py`; FastAPI
  turns it into a 500 response). -/
  | valueError (msg : String)
deriving DecidableEq, Repr

/-- The NUL character, which CPython rejects in any path passed to the OS. -/
def nulChar : Char := Char.ofNat 0

/-- `Path.resolve()` on the (always absolute) joined path: raises
`ValueError("embedded null byte")` if a segment contains NUL, otherwise
returns the absolute, lexically normalized path.  `tasksB.py` resolves
only paths of the form `DATA_DIR / candidate`, which are absolute, so the
cwd-prepending branch of `resolve` never fires and is not modelled. -/
def pyResolve (p : PyPath) : Except PyError PyPath :=
  if p.segments.all (fun s => !(s.data.contains nulChar)) then
    .ok ⟨true, resolveSegs p.segments⟩
  else
    .error (.valueError "embedded null byte")

/-- `str(path)`: join the segments with `/`. -/
def joinSegs : List String → String
  | [] => ""
  | [s] => s
  | s :: rest => s ++ "/" ++ joinSegs rest

/-- `str(path)` for the absolute paths the guard manipulates
(`str(Path("/")) = "/"`, `str(Path("/a/b")) = "/a/b"`); a relative path
renders without the leading slash (`str(Path(".")) = "."`). -/
def pyStr (p : PyPath) : String :=
  if p.absolute then "/" ++ joinSegs p.segments
  else if p.segments.isEmpty then "." else joinSegs p.segments

/-- Python `str.startswith`: the pattern is a prefix of the character
sequence. -/
def strStartsWith (s pre : String) : Bool :=
  pre.data.isPrefixOf s.data

/-- `ensure_data_path` (tasksB.py lines 21-26), translated clause by
clause: resolve `DATA_DIR / filepath`; if `str(path)` does not start with
`str(DATA_DIR)` raise `HTTPException(403, "Access outside /data is
forbidden")`; otherwise return the resolved path.  A failure of
`resolve()` itself propagates (there is no try/except). -/
def ensure_data_path (filepath : PyPath) : Except PyError PyPath :=
  match pyResolve (pathJoin DATA_DIR filepath) with
  | .error e => .error e
  | .ok path =>
    if !(strStartsWith (pyStr path) (pyStr DATA_DIR)) then
      .error (.httpException 403 "Access outside /data is forbidden")
    else
      .ok path

/-- Split a character list on `/`. -/
def splitOnSlash : List Char → List Char → List (List Char)
  | [], cur => [cur]
  | c :: rest, cur =>
    if c == '/' then cur :: splitOnSlash rest []
    else splitOnSlash rest (cur ++ [c])

/-- Does the string begin with `/`? -/
def isAbsStr (s : String) : Bool :=
  match s.data with
  | c :: _ => c == '/'
  | [] => false

/-- `Path(s)` for a caller-supplied string: split on `/`, drop empty and
`.` segments (as `PurePath` construction does), record absoluteness. -/
def parsePath (s : String) : PyPath :=
  let parts := (splitOnSlash s.data []).map (fun cs => String.mk cs)
  ⟨isAbsStr s, parts.filter (fun seg => !(seg == "" || seg == "."))⟩

/-- Segment-aware containment of the spec: the root is the path itself or
a canonical-segment ancestor of it (both absolute). -/
def segContained (root p : PyPath) : Bool :=
  root.absolute == p.absolute && root.segments.isPrefixOf p.segments

example : parsePath "report.json" = ⟨false, ["report.json"]⟩ := by decide
example : parsePath "../x" = ⟨false, ["..", "x"]⟩ := by decide
example : parsePath "/data2/x" = ⟨true, ["data2", "x"]⟩ := by decide
example : pyStr DATA_DIR = "/data" := by decide
example : ensure_data_path (parsePath "report.json") =
    .ok ⟨true, ["data", "report.json"]⟩ := rfl
example : ensure_data_path (parsePath "../x") =
    .error (.httpException 403 "Access outside /data is forbidden") := rfl
example : ensure_data_path (parsePath "/data2/x") =
    .ok ⟨true, ["data2", "x"]⟩ := rfl
example : segContained DATA_DIR ⟨true, ["data2", "x"]⟩ = false := by decide

/-!
## Control-flow traces of the task bodies

Each task body in `tasksB.py` is straight-line code.  For the temporal
claim about ordering (guard before side effect, guard before
collaborator) each body is embedded as the list of its observable events
in source order.  Events:
* `guard a` — a call `ensure_data_path(a)` that returned (i.e. succeeded),
  where `a` names the caller-supplied path argument it authorizes;
* `collab n` — an invocation of an external collaborator `n` (HTTP
  client, git client, SQL engine, image codec, transcoder, speech engine,
  markdown renderer);
* `fsop n a` — a filesystem side effect `n` (open/read/write/stat) whose
  path is the authorized form of path argument `a`.
Each trace is the longest prefix of the body in which every guard
succeeds (a failing guard raises and ends the trace, so events after a
guard are conditional on its success — which is what the ordering claim
is about).
-/

/-- Observable events of a task body, in source order. -/
inductive Event where
  | guard (arg : String)
  | collab (name : String)
  | fsop (name : String) (arg : String)
deriving DecidableEq, Repr, BEq

/-- B3 (lines 28-34): `requests.get(api_url)`; `raise_for_status`;
`ensure_data_path(filename)`; `open(save_path, "w")` + `json.dump`. -/
def traceB3 : List Event :=
  [.collab "requests.get", .guard "filename", .fsop "open_write" "filename"]

/-- B4 (lines 36-53): `ensure_data_path("repo")`; clone-or-pull via git;
`ensure_data_path("repo/" + file_to_change)`; write the file; git
add/commit/push. -/
def traceB4 : List Event :=
  [.guard "repo", .collab "git_clone_or_pull", .guard "repo/file_to_change",
   .fsop "open_write" "repo/file_to_change", .collab "git_add_commit_push"]

/-- B5 (lines 55-65): guard `db_path`; guard `output_file`; connect and
run the query; write the JSON result. -/
def traceB5 : List Event :=
  [.guard "db_path", .guard "output_file", .collab "sql_execute",
   .fsop "open_write" "output_file"]

/-- B6 (lines 67-73): `requests.get(url)`; guard `output_file`; write. -/
def traceB6 : List Event :=
  [.collab "requests.get", .guard "output_file", .fsop "open_write" "output_file"]

/-- B7 (lines 75-81): guard `image_path`; guard `output_path`;
`Image.open`; `thumbnail`; `save`. -/
def traceB7 : List Event :=
  [.guard "image_path", .guard "output_path", .fsop "image_open" "image_path",
   .collab "image_thumbnail", .fsop "image_save" "output_path"]

/-- B8 (lines 83-100): guard `audio_path`; guard `output_file`; read the
MP3; export the WAV (path derived from the authorized `audio_path` by a
suffix change); speech recognition; write the text. -/
def traceB8 : List Event :=
  [.guard "audio_path", .guard "output_file", .fsop "read_mp3" "audio_path",
   .fsop "export_wav" "audio_path", .collab "speech_recognize",
   .fsop "open_write" "output_file"]

/-- B9 (lines 102-109): guard `markdown_file`; guard `output_file`; read
the markdown; render; write the HTML. -/
def traceB9 : List Event :=
  [.guard "markdown_file", .guard "output_file", .fsop "open_read" "markdown_file",
   .collab "markdown_render", .fsop "open_write" "output_file"]

/-- B10 (lines 111-120): guard `csv_file`; `exists()` check; open/read. -/
def traceB10 : List Event :=
  [.guard "csv_file", .fsop "stat_exists" "csv_file", .fsop "open_read" "csv_file"]

/-- The caller-supplied path arguments of each task, paired with its trace. -/
def taskTraces : List (List String × List Event) :=
  [(["filename"], traceB3),
   (["repo", "repo/file_to_change"], traceB4),
   (["db_path", "output_file"], traceB5),
   (["output_file"], traceB6),
   (["image_path", "output_path"], traceB7),
   (["audio_path", "output_file"], traceB8),
   (["markdown_file", "output_file"], traceB9),
   (["csv_file"], traceB10)]

/-- Every filesystem side effect in the trace is preceded by a successful
guard of the path argument it involves. -/
def fsopsGuarded (tr : List Event) : Bool :=
  (List.range tr.length).all fun i =>
    match tr.get? i with
    | some (.fsop _ arg) => (tr.take i).contains (Event.guard arg)
    | _ => true

/-- Every collaborator invocation in the trace happens only after the
guard has authorized every path argument of the task. -/
def collabsAfterGuards (pathArgs : List String) (tr : List Event) : Bool :=
  (List.range tr.length).all fun i =>
    match tr.get? i with
    | some (.collab _) => pathArgs.all fun a => (tr.take i).contains (Event.guard a)
    | _ => true

example : fsopsGuarded traceB3 = true := by decide
example : collabsAfterGuards ["filename"] traceB3 = false := by decide
example : collabsAfterGuards ["repo", "repo/file_to_change"] traceB4 = false := by decide
example : collabsAfterGuards ["db_path", "output_file"] traceB5 = true := by decide
example : (taskTraces.all fun t => fsopsGuarded t.2) = true := by decide

/-!
## The CSV filter task B10

`csv.DictReader` semantics, at the granularity of already-tokenized rows
(lists of cell strings, as `csv.reader` yields them): the field names are
the first row; blank rows (`[]`) are skipped; each remaining row becomes
the dict `dict(zip(fieldnames, row))`, then every field name beyond the
row's length is bound to `restval = None` (`DictReader.__next__`).  In a
Python dict the later binding of a duplicate key wins, hence the lookup
searches the binding list from the right.  `row.get(column)` yields the
bound value, or `None` when the key is absent — and `None` bound by
`restval` and `None` from a missing key are both `None`, so both compare
unequal to the (string) query value.
-/

/-- The key/value bindings of the `DictReader` row dict, in assignment
order: `dict(zip(fieldnames, row))` then `restval = None` for the field
names beyond the row's length. -/
def dictBindings (header row : List String) : List (String × Option String) :=
  (header.zip row).map (fun p => (p.1, some p.2)) ++
    (header.drop row.length).map (fun k => (k, none))

/-- `row.get(column)`: the last binding of the key wins (Python dict
assignment order); an unbound key gives `None`, as does a key bound to
`restval = None`. -/
def rowGet (header row : List String) (col : String) : Option String :=
  (((dictBindings header row).reverse.lookup col).getD none)

/-- The rows `DictReader` yields: everything after the header row, blank
rows (`[]`) skipped. -/
def dictRows (rows : List (List String)) : List (List String) :=
  rows.filter (fun r => !r.isEmpty)

/-- The list comprehension of B10 (line 119):
`[row for row in reader if row.get(column) == value]`, over the data
rows, given the header. -/
def b10Matches (header : List String) (rows : List (List String))
    (col value : String) : List (List String) :=
  (dictRows rows).filter (fun row => rowGet header row col == some value)

/-- The whole body of B10 (lines 111-120), with the filesystem passed
explicitly as a partial map from canonical paths to tokenized CSV
contents (all rows, header first): guard `csv_file`; 404 if the file
does not exist; otherwise filter.  A guard failure propagates. -/
def B10 (fs : PyPath → Option (List (List String))) (csv_file : PyPath)
    (column value : String) : Except PyError (List (List String)) :=
  match ensure_data_path csv_file with
  | .error e => .error e
  | .ok p =>
    match fs p with
    | none => .error (.httpException 404 "CSV file not found")
    | some rows => .ok (b10Matches (rows.headD []) rows.tail column value)

example : b10Matches ["status"] [["ok"], ["bad"], ["ok"]] "status" "ok" =
    [["ok"], ["ok"]] := by decide
example : rowGet ["a", "b"] ["1"] "b" = none := by decide
example : rowGet ["a", "b"] ["1"] "a" = some "1" := by decide
example : rowGet ["a"] ["1", "2"] "c" = none := by decide

/-!
## Claim theorems
-/

/-- Claim C1: the spec asserts the guard returns only paths contained in
the root (segment-wise) or rejects, with no third outcome.  The code
violates this: the candidate `/data2/secret` — absolute, so `DATA_DIR /
candidate` discards the root — resolves to `/data2/secret`, whose string
form starts with the string `/data`, so line 24's `startswith` test
passes and the guard RETURNS a path that is not the root and not a
segment-descendant of the root.  This theorem evaluates the code at that
failing input. -/
theorem C1_guard_returns_escaping_path :
    ensure_data_path (parsePath "/data2/secret") =
      .ok ⟨true, ["data2", "secret"]⟩ ∧
    segContained DATA_DIR ⟨true, ["data2", "secret"]⟩ = false :=
  ⟨rfl, by decide⟩

/-- Claim C2: the spec requires the containment comparison to be
segment-aware, never a raw string-prefix test, and requires `/data2/x` to
be rejected.  The code's comparison is literally
`str(path).startswith(str(DATA_DIR))`: for the sibling `/data2/x` the
string `/data` is a character prefix of `/data2/x` although `data` is not
a segment ancestor, and the guard accepts it instead of raising 403. -/
theorem C2_string_prefix_accepts_sibling :
    ensure_data_path (parsePath "/data2/x") = .ok ⟨true, ["data2", "x"]⟩ ∧
    strStartsWith (pyStr ⟨true, ["data2", "x"]⟩) (pyStr DATA_DIR) = true ∧
    segContained DATA_DIR ⟨true, ["data2", "x"]⟩ = false :=
  ⟨rfl, by decide, by decide⟩

/-- Claim C3, counterexample: in task B3 the HTTP collaborator
`requests.get` is the first event of the trace, before the guard has
authorized the task's path argument `filename`, so the claim that
collaborators are invoked only after the guard authorizes every path
argument is false for the code. -/
theorem C3_collab_before_guard_in_B3 :
    taskTraces.contains (["filename"], traceB3) = true ∧
    collabsAfterGuards ["filename"] traceB3 = false := by decide

/-- Claim C3, amended: every filesystem side effect is preceded by a
successful guard of the path argument it involves, in every task; and
collaborators run only after all path arguments are authorized in B5,
B7, B8, B9 and B10 — but not in B3 and B6 (the HTTP fetch precedes the
guard of the output path) nor in B4 (the git clone/pull precedes the
guard of `repo/file_to_change`). -/
theorem C3_fsops_guarded_collabs_partial :
    (taskTraces.all fun t => fsopsGuarded t.2) = true ∧
    collabsAfterGuards ["db_path", "output_file"] traceB5 = true ∧
    collabsAfterGuards ["image_path", "output_path"] traceB7 = true ∧
    collabsAfterGuards ["audio_path", "output_file"] traceB8 = true ∧
    collabsAfterGuards ["markdown_file", "output_file"] traceB9 = true ∧
    collabsAfterGuards ["csv_file"] traceB10 = true := by decide

/-- Claim C4: the parent-traversal candidates `../x` and `../secrets.txt`
(resolving to `/x` and `/secrets.txt`) and the absolute candidate
`/etc/passwd` are all rejected by the guard with the 403 AccessDenied
exception. -/
theorem C4_traversal_and_absolute_rejected :
    ensure_data_path (parsePath "../x") =
      .error (.httpException 403 "Access outside /data is forbidden") ∧
    ensure_data_path (parsePath "../secrets.txt") =
      .error (.httpException 403 "Access outside /data is forbidden") ∧
    ensure_data_path (parsePath "/etc/passwd") =
      .error (.httpException 403 "Access outside /data is forbidden") :=
  ⟨rfl, rfl, rfl⟩

/-- A candidate whose single segment contains a NUL byte: CPython's
`resolve()` raises `ValueError("embedded null byte")` on it. -/
def nulCandidate : PyPath := ⟨false, [String.mk ['a', nulChar]]⟩

/-- Claim C5, counterexample: on a canonicalization failure the guard
does not surface AccessDenied — `ensure_data_path` has no handler around
`resolve()`, so the `ValueError` propagates as an uncaught exception
(HTTP 500), which is a different error value than the 403 AccessDenied
`HTTPException` the claim names. -/
theorem C5_resolve_failure_not_403 :
    ensure_data_path nulCandidate = .error (.valueError "embedded null byte") ∧
    PyError.valueError "embedded null byte" ≠
      PyError.httpException 403 "Access outside /data is forbidden" :=
  ⟨rfl, by decide⟩

/-- Claim C5, amended: a canonicalization failure is never silently
passed through — whenever `resolve()` fails, `ensure_data_path`
propagates that error and never returns an authorized path — but the
surfaced error is the uncaught `ValueError` (an HTTP 500), not the
AccessDenied 403 condition. -/
theorem C5_resolve_failure_propagates (c : PyPath) (e : PyError)
    (h : pyResolve (pathJoin DATA_DIR c) = .error e) :
    ensure_data_path c = .error e := by
  unfold ensure_data_path
  rw [h]

/-- Witness for C5: the NUL-segment candidate makes `resolve()` fail and
the guard propagates exactly that error. -/
theorem C5_resolve_failure_propagates_witness :
    ensure_data_path nulCandidate = .error (.valueError "embedded null byte") :=
  C5_resolve_failure_propagates nulCandidate (.valueError "embedded null byte") rfl

/-- Claim C6: with root `/data`, the relative candidate `report.json` is
joined under the root and the guard returns the canonical authorized
path whose string form is exactly `/data/report.json`, which is
segment-contained in the root. -/
theorem C6_relative_join_authorized :
    ensure_data_path (parsePath "report.json") =
      .ok ⟨true, ["data", "report.json"]⟩ ∧
    pyStr ⟨true, ["data", "report.json"]⟩ = "/data/report.json" ∧
    segContained DATA_DIR ⟨true, ["data", "report.json"]⟩ = true :=
  ⟨rfl, by decide, by decide⟩

/-- Claim C7: the guard is a function of its argument alone — the
embedding threads no state (the root is an immutable constant), so two
calls with identical inputs yield identical results. -/
theorem C7_guard_deterministic (c₁ c₂ : PyPath) (h : c₁ = c₂) :
    ensure_data_path c₁ = ensure_data_path c₂ := by
  rw [h]

/-- Witness for C7 at the concrete candidate `report.json`. -/
theorem C7_guard_deterministic_witness :
    parsePath "report.json" = parsePath "report.json" ∧
    ensure_data_path (parsePath "report.json") =
      ensure_data_path (parsePath "report.json") :=
  ⟨rfl, C7_guard_deterministic (parsePath "report.json") (parsePath "report.json") rfl⟩

/-- Helper: `List.lookup` misses when no key of the association list is
the sought key. -/
theorem lookup_none_of_no_key {β : Type} (col : String) :
    ∀ l : List (String × β), (∀ kv ∈ l, kv.1 ≠ col) → l.lookup col = none := by
  intro l
  induction l with
  | nil => intro _; rfl
  | cons kv rest ih =>
    intro h
    have hne : kv.1 ≠ col := h kv (List.mem_cons_self kv rest)
    have hb : (col == kv.1) = false := by
      rw [beq_eq_false_iff_ne]
      exact fun e => hne e.symm
    simp only [List.lookup, hb]
    exact ih fun x hx => h x (List.mem_cons_of_mem kv hx)

/-- Helper: every key bound in the `DictReader` row dict comes from the
header. -/
theorem dictBindings_keys_from_header (header row : List String)
    (kv : String × Option String) (h : kv ∈ dictBindings header row) :
    kv.1 ∈ header := by
  unfold dictBindings at h
  rcases List.mem_append.mp h with h1 | h2
  · obtain ⟨p, hp, hpe⟩ := List.mem_map.mp h1
    have := (List.of_mem_zip hp).1
    rw [← hpe]
    exact this
  · obtain ⟨k, hk, hke⟩ := List.mem_map.mp h2
    have : k ∈ header := List.mem_of_mem_drop hk
    rw [← hke]
    exact this

/-- Helper: a column name absent from the header looks up to `None`. -/
theorem rowGet_none_of_missing_col (header row : List String) (col : String)
    (h : col ∉ header) : rowGet header row col = none := by
  unfold rowGet
  have hl : (dictBindings header row).reverse.lookup col = none := by
    apply lookup_none_of_no_key
    intro kv hkv heq
    exact h (heq ▸ dictBindings_keys_from_header header row kv
      (List.mem_reverse.mp hkv))
  rw [hl]
  rfl

/-- Helper: with a column name absent from the header, no row matches. -/
theorem b10Matches_nil_of_missing_col (header : List String)
    (rows : List (List String)) (col value : String) (h : col ∉ header) :
    b10Matches header rows col value = [] := by
  unfold b10Matches
  apply List.filter_eq_nil_iff.mpr
  intro row _
  rw [rowGet_none_of_missing_col header row col h]
  simp

/-- Claim C8: when the guard authorizes the CSV path and the file exists,
B10 returns exactly the data rows whose named column equals the value —
the result is the filter of the data rows (header row excluded, blank
rows skipped), it is a sublist of the data rows (file order preserved),
and membership is equivalent to matching. -/
theorem C8_filter_rows (fs : PyPath → Option (List (List String)))
    (c p : PyPath) (rows : List (List String)) (col value : String)
    (hg : ensure_data_path c = .ok p) (hf : fs p = some rows) :
    B10 fs c col value = .ok (b10Matches (rows.headD []) rows.tail col value) ∧
    (b10Matches (rows.headD []) rows.tail col value).Sublist (dictRows rows.tail) ∧
    ∀ row, row ∈ b10Matches (rows.headD []) rows.tail col value ↔
      row ∈ dictRows rows.tail ∧ rowGet (rows.headD []) row col = some value := by
  refine ⟨?_, ?_, ?_⟩
  · simp only [B10, hg, hf]
  · exact List.filter_sublist _
  · intro row
    simp [b10Matches, List.mem_filter]

/-- A concrete filesystem holding one CSV file `/data/input.csv` with
header `status` and three data rows, two of which have value `ok`. -/
def csvFS : PyPath → Option (List (List String)) :=
  fun p => if p = ⟨true, ["data", "input.csv"]⟩ then
    some [["status"], ["ok"], ["bad"], ["ok"]] else none

/-- Witness for C8 at the 3-row file of end-to-end scenario 4. -/
theorem C8_filter_rows_witness :
    B10 csvFS (parsePath "input.csv") "status" "ok" =
      .ok (b10Matches ([["status"], ["ok"], ["bad"], ["ok"]].headD [])
        [["status"], ["ok"], ["bad"], ["ok"]].tail "status" "ok") ∧
    (b10Matches ([["status"], ["ok"], ["bad"], ["ok"]].headD [])
      [["status"], ["ok"], ["bad"], ["ok"]].tail "status" "ok").Sublist
      (dictRows [["status"], ["ok"], ["bad"], ["ok"]].tail) ∧
    ∀ row, row ∈ b10Matches ([["status"], ["ok"], ["bad"], ["ok"]].headD [])
        [["status"], ["ok"], ["bad"], ["ok"]].tail "status" "ok" ↔
      row ∈ dictRows [["status"], ["ok"], ["bad"], ["ok"]].tail ∧
        rowGet ([["status"], ["ok"], ["bad"], ["ok"]].headD []) row "status" = some "ok" :=
  C8_filter_rows csvFS (parsePath "input.csv") ⟨true, ["data", "input.csv"]⟩
    [["status"], ["ok"], ["bad"], ["ok"]] "status" "ok" rfl rfl

/-- Claim C9: if the guard authorizes the CSV path but the file is absent,
B10 fails with the 404 NotFound exception (line 116) — the error is
produced before any file content is consulted, so no read occurs. -/
theorem C9_missing_file_404 (fs : PyPath → Option (List (List String)))
    (c p : PyPath) (col value : String)
    (hg : ensure_data_path c = .ok p) (hf : fs p = none) :
    B10 fs c col value = .error (.httpException 404 "CSV file not found") := by
  simp only [B10, hg, hf]

/-- An empty filesystem: no file exists. -/
def emptyFS : PyPath → Option (List (List String)) := fun _ => none

/-- Witness for C9: an authorized path to a file that does not exist. -/
theorem C9_missing_file_404_witness :
    B10 emptyFS (parsePath "input.csv") "status" "ok" =
      .error (.httpException 404 "CSV file not found") :=
  C9_missing_file_404 emptyFS (parsePath "input.csv")
    ⟨true, ["data", "input.csv"]⟩ "status" "ok" rfl rfl

/-- Claim C10: for an existing CSV file whose header does not contain the
requested column, B10 returns the empty list — `row.get(column)` yields
`None` for every row, and `None` never equals the caller's string value. -/
theorem C10_missing_column_empty (fs : PyPath → Option (List (List String)))
    (c p : PyPath) (rows : List (List String)) (col value : String)
    (hg : ensure_data_path c = .ok p) (hf : fs p = some rows)
    (hcol : col ∉ rows.headD []) :
    B10 fs c col value = .ok [] := by
  simp only [B10, hg, hf]
  rw [b10Matches_nil_of_missing_col _ _ _ _ hcol]

/-- Witness for C10: the file's header is `status`, the requested column
`city` is not in it, and the result is the empty list. -/
theorem C10_missing_column_empty_witness :
    ("city" ∉ [["status"], ["ok"], ["bad"], ["ok"]].headD []) ∧
    B10 csvFS (parsePath "input.csv") "city" "ok" = .ok [] :=
  ⟨by decide, C10_missing_column_empty csvFS (parsePath "input.csv")
    ⟨true, ["data", "input.csv"]⟩ [["status"], ["ok"], ["bad"], ["ok"]]
    "city" "ok" rfl rfl (by decide)⟩
